import Mathlib

/-!
Shallow embedding of `app.py` (trading-data-api): a Flask service exposing
price history enriched with technical indicators and rule-based labels.

Modelling conventions:
* Python/pandas floats that can be NaN are `PF := Option ℚ` (`none` = NaN /
  missing).  IEEE comparisons against NaN are false, which `pyGt` / `pyLt`
  reproduce.  Exact rational arithmetic stands in for floating point; the
  spec demands no precision guarantees beyond standard float arithmetic.
* Python exceptions are an explicit `PyExc` value threaded through `Except`;
  the `try/except` wrappers of the two endpoints turn them into the
  `jsonify({'error': str(e)}), 500` responses of the source.
* The external market-data provider (`tv.get_hist`) is an oracle argument of
  type `Fetch`; a Flask `request`'s query parameters are a `ReqArgs` record.
-/

namespace App

/-- A pandas float cell: `none` models NaN / missing. -/
abbrev PF := Option ℚ

/-- Python `a > b` on possibly-NaN floats: any comparison with NaN is false. -/
def pyGt : PF → PF → Bool
  | some a, some b => decide (b < a)
  | _, _ => false

/-- Python `a < b` on possibly-NaN floats: any comparison with NaN is false. -/
def pyLt : PF → PF → Bool
  | some a, some b => decide (a < b)
  | _, _ => false

/-- Subtraction with NaN propagation. -/
def pfSub : PF → PF → PF
  | some a, some b => some (a - b)
  | _, _ => none

/-- `abs` with NaN propagation. -/
def pfAbs : PF → PF
  | some a => some |a|
  | none => none

/-! ### Signal classifier labels (app.py lines 119-138, 167, 179-180).
`get_data` computes these inline on the latest row; they are factored out
here as the functions of the indicator cells they read. -/

/-- app.py lines 120-124: `trend = "NEUTRE"`, then the chained comparison
`close > ema_20 > ema_50` picks `HAUSSIÈRE`, elif `close < ema_20 < ema_50`
picks `BAISSIÈRE`. -/
def trendLabel (close ema20 ema50 : PF) : String :=
  if pyGt close ema20 && pyGt ema20 ema50 then "HAUSSIÈRE"
  else if pyLt close ema20 && pyLt ema20 ema50 then "BAISSIÈRE"
  else "NEUTRE"

/-- app.py lines 127-131: RSI label. -/
def rsiLabel (rsi : PF) : String :=
  if pyGt rsi (some 70) then "SURACHETÉ"
  else if pyLt rsi (some 30) then "SURVENDU"
  else "NEUTRE"

/-- app.py lines 134-138: the source initialises `macd_signal = "NEUTRE"` and
then unconditionally overwrites it in an if/else, so the result is two-way:
`HAUSSIER` when `macd > macd_signal`, otherwise `BAISSIER`. -/
def macdLabel (macd sig : PF) : String :=
  if pyGt macd sig then "HAUSSIER" else "BAISSIER"

/-- app.py line 167: Bollinger position label. -/
def bollPosition (close middle : PF) : String :=
  if pyGt close middle then "proche_resistance" else "proche_support"

/-- app.py line 179: position vs EMA20. -/
def posVsEma20 (close ema20 : PF) : String :=
  if pyGt close ema20 then "AU-DESSUS" else "EN-DESSOUS"

/-- app.py line 180: strength label, `abs(close - ema_20) > atr`. -/
def forceLabel (close ema20 atr : PF) : String :=
  if pyGt (pfAbs (pfSub close ema20)) atr then "FORTE" else "FAIBLE"

/-! ### Indicator engine.
`calculate_indicators` (app.py lines 34-69) delegates the numeric work to the
external `ta` / pandas libraries.  Modelled from the spec: §4.1 gives the
algorithms (RSI smoothed-window gains/losses, MACD 12/26/9 EMAs, Bollinger
SMA ± 2·std, ATR Wilder smoothing, Stochastic %K/%D, EMA(k) with smoothing
2/(k+1), rolling 50-period extremes) together with pandas missing-value
semantics: an indicator is NaN until its lookback window (`min_periods`)
is satisfied, and NaN never silently becomes a default. -/

/-- One OHLCV price bar (tvDatafeed row after `reset_index`). -/
structure Bar where
  datetime : String
  open_ : ℚ
  high : ℚ
  low : ℚ
  close : ℚ
  volume : ℚ
deriving Inhabited, DecidableEq

/-- The length-`w` window of `xs` ending at index `i` (meaningful when
`w ≤ i+1 ≤ xs.length`). -/
def windowL (w : Nat) (xs : List ℚ) (i : Nat) : List ℚ :=
  (xs.take (i+1)).drop (i+1-w)

/-- `rolling(w).mean()` with the default `min_periods = w`. -/
def rollMean (w : Nat) (xs : List ℚ) (i : Nat) : PF :=
  if w ≤ i+1 ∧ i < xs.length then some ((windowL w xs i).sum / (w : ℚ)) else none

/-- Maximum of a list of rationals. -/
def listMax : List ℚ → Option ℚ
  | [] => none
  | x :: t => some (t.foldl max x)

/-- Minimum of a list of rationals. -/
def listMin : List ℚ → Option ℚ
  | [] => none
  | x :: t => some (t.foldl min x)

/-- `rolling(w).max()` with the default `min_periods = w`. -/
def rollMax (w : Nat) (xs : List ℚ) (i : Nat) : PF :=
  if w ≤ i+1 ∧ i < xs.length then listMax (windowL w xs i) else none

/-- `rolling(w).min()` with the default `min_periods = w`. -/
def rollMin (w : Nat) (xs : List ℚ) (i : Nat) : PF :=
  if w ≤ i+1 ∧ i < xs.length then listMin (windowL w xs i) else none

/-- Core of pandas `ewm(adjust=False, min_periods=minp).mean()`: the state is
the running EWM value (seeded at the first non-NaN observation) and the count
of non-NaN observations; NaN inputs leave the state unchanged and the output
is NaN until `minp` observations have been seen. -/
def ewmGo (alpha : ℚ) (minp : Nat) : Option ℚ → Nat → List PF → List PF
  | _, _, [] => []
  | st, cnt, x :: rest =>
    let stNew : Option ℚ :=
      match x, st with
      | some v, none => some v
      | some v, some m => some (alpha * v + (1 - alpha) * m)
      | none, s => s
    let cntNew : Nat := if x.isSome then cnt + 1 else cnt
    (if minp ≤ cntNew then stNew else none) :: ewmGo alpha minp stNew cntNew rest

/-- pandas `Series.ewm(adjust=False, min_periods=minp).mean()`. -/
def ewmMean (alpha : ℚ) (minp : Nat) (xs : List PF) : List PF :=
  ewmGo alpha minp none 0 xs

/-- Modelled from the spec: EMA(k) with smoothing factor `2/(k+1)`; the `ta`
implementation is `close.ewm(span=w, min_periods=w, adjust=False).mean()`. -/
def emaList (w : Nat) (closes : List ℚ) : List PF :=
  ewmMean (2 / ((w : ℚ) + 1)) w (closes.map some)

/-- Elementwise subtraction of two aligned indicator series. -/
def zipSub (xs ys : List PF) : List PF := List.zipWith pfSub xs ys

/-- Modelled from the spec: MACD line = EMA12 − EMA26 of close. -/
def macdLine (closes : List ℚ) : List PF :=
  zipSub (emaList 12 closes) (emaList 26 closes)

/-- Modelled from the spec: MACD signal line = 9-period EMA of the MACD line. -/
def macdSignalLine (closes : List ℚ) : List PF :=
  ewmMean (2 / 10) 9 (macdLine closes)

/-- Modelled from the spec: MACD histogram = MACD line − signal line. -/
def macdDiffLine (closes : List ℚ) : List PF :=
  zipSub (macdLine closes) (macdSignalLine closes)

/-- `close.diff(1)` with the index-0 NaN already replaced by 0 (the `ta` RSI
code replaces it via `diff.where(diff > 0, 0.0)`, and NaN > 0 is false). -/
def diffs (closes : List ℚ) : List ℚ :=
  match closes with
  | [] => []
  | _ :: rest => 0 :: List.zipWith (fun a b => a - b) rest closes

/-- Modelled from the spec: RSI(14) = 100 − 100/(1 + avg gain / avg loss)
with Wilder smoothing `ewm(alpha=1/14, min_periods=14, adjust=False)`;
when the smoothed loss is 0 the value is 100, and it is missing before the
14-observation window is satisfied. -/
def rsiList (closes : List ℚ) : List PF :=
  let d := diffs closes
  let ups := d.map (fun x => max x 0)
  let downs := d.map (fun x => max (-x) 0)
  let emaup := ewmMean (1 / 14) 14 (ups.map some)
  let emadn := ewmMean (1 / 14) 14 (downs.map some)
  List.zipWith
    (fun u dn =>
      match u, dn with
      | some uv, some dv =>
          if dv = 0 then some 100 else some (100 - 100 / (1 + uv / dv))
      | _, _ => none)
    emaup emadn

/-- Modelled from the spec: Stochastic %K = 100·(close − 14-low)/(14-high −
14-low); a zero range (division by zero) is missing, not an exception. -/
def stochKList (highs lows closes : List ℚ) : List PF :=
  (List.range closes.length).map fun i =>
    match rollMin 14 lows i, rollMax 14 highs i with
    | some smin, some smax =>
        if smax - smin = 0 then none
        else some (100 * (closes.getD i 0 - smin) / (smax - smin))
    | _, _ => none

/-- Modelled from the spec: %D = 3-period simple moving average of %K
(pandas `rolling(3, min_periods=3)` counts non-NaN values in the window). -/
def stochDList (highs lows closes : List ℚ) : List PF :=
  let k := stochKList highs lows closes
  (List.range closes.length).map fun i =>
    if 3 ≤ i + 1 then
      match k.getD i none, k.getD (i-1) none, k.getD (i-2) none with
      | some a, some b, some c => some ((a + b + c) / 3)
      | _, _, _ => none
    else none

/-- True range of the bars after the first (previous close available). -/
def trGo (prev : Bar) : List Bar → List ℚ
  | [] => []
  | b :: rest =>
      max (b.high - b.low) (max |b.high - prev.close| |b.low - prev.close|) ::
        trGo b rest

/-- True-range series; at index 0 the shifted close is NaN and the pandas
row-max skips it, leaving `high − low`. -/
def trList : List Bar → List ℚ
  | [] => []
  | b0 :: rest => (b0.high - b0.low) :: trGo b0 rest

/-- Wilder recursion for ATR after the seed index. -/
def atrRec (prev : ℚ) : List ℚ → List ℚ
  | [] => []
  | t :: rest =>
      let a := (prev * 13 + t) / 14
      a :: atrRec a rest

/-- Modelled from the spec: ATR(14).  The `ta` implementation writes into
`np.zeros(len)`: indices 0..12 stay 0.0 (not NaN), index 13 is the mean of
the first 14 true ranges, then Wilder smoothing.  Only called on series of
length ≥ 14 (shorter input raises, see `get_data_body`). -/
def atrList (trs : List ℚ) : List ℚ :=
  let seed := (trs.take 14).sum / 14
  (List.replicate 13 (0 : ℚ)) ++ [seed] ++ atrRec seed (trs.drop 14)

/-- Bollinger middle band: 20-period SMA of close (app.py line 49). -/
def bb_mavg (closes : List ℚ) (i : Nat) : PF := rollMean 20 closes i

/-- Population variance (ddof = 0) of the 20-close window, the square of the
rolling std used by the Bollinger bands. -/
def bb_var (closes : List ℚ) (i : Nat) : PF :=
  match rollMean 20 closes i with
  | some m => some (((windowL 20 closes i).map (fun x => (x - m)^2)).sum / 20)
  | none => none

/-- Rolling standard deviation: square root of `bb_var`. -/
noncomputable def bb_std (closes : List ℚ) (i : Nat) : Option ℝ :=
  (bb_var closes i).map fun v => Real.sqrt (v : ℝ)

/-- Modelled from the spec: Bollinger upper band = SMA20 + 2·std (app.py
line 48). -/
noncomputable def bb_hband (closes : List ℚ) (i : Nat) : Option ℝ :=
  match bb_mavg closes i, bb_std closes i with
  | some m, some s => some ((m : ℝ) + 2 * s)
  | _, _ => none

/-- Modelled from the spec: Bollinger lower band = SMA20 − 2·std (app.py
line 50). -/
noncomputable def bb_lband (closes : List ℚ) (i : Nat) : Option ℝ :=
  match bb_mavg closes i, bb_std closes i with
  | some m, some s => some ((m : ℝ) - 2 * s)
  | _, _ => none

/-- One row of the indicator-enriched dataframe after `reset_index`
(`df_reset` in app.py): the raw bar columns plus every indicator column. -/
structure Row where
  datetime : String
  open_ : ℚ
  high : ℚ
  low : ℚ
  close : ℚ
  volume : ℚ
  rsi : PF
  macd : PF
  macd_signal : PF
  macd_diff : PF
  bb_upper : Option ℝ
  bb_middle : PF
  bb_lower : Option ℝ
  atr : PF
  stoch_k : PF
  stoch_d : PF
  ema_20 : PF
  ema_50 : PF
  ema_200 : PF
  resistance : PF
  support : PF
deriving Inhabited

/-- `calculate_indicators` + `reset_index` (app.py lines 34-69, 113): every
indicator column aligned index-for-index with the bars.  Only evaluated for
series of length ≥ 14 (see `get_data_body` for the short-series exception). -/
noncomputable def buildRows (bars : List Bar) : List Row :=
  let closes := bars.map Bar.close
  let highs := bars.map Bar.high
  let lows := bars.map Bar.low
  let rsiL := rsiList closes
  let macdL := macdLine closes
  let macdS := macdSignalLine closes
  let macdD := macdDiffLine closes
  let e20 := emaList 20 closes
  let e50 := emaList 50 closes
  let e200 := emaList 200 closes
  let kL := stochKList highs lows closes
  let dL := stochDList highs lows closes
  let atrL := atrList (trList bars)
  bars.enum.map fun p =>
    { datetime := p.2.datetime
      open_ := p.2.open_
      high := p.2.high
      low := p.2.low
      close := p.2.close
      volume := p.2.volume
      rsi := rsiL.getD p.1 none
      macd := macdL.getD p.1 none
      macd_signal := macdS.getD p.1 none
      macd_diff := macdD.getD p.1 none
      bb_upper := bb_hband closes p.1
      bb_middle := bb_mavg closes p.1
      bb_lower := bb_lband closes p.1
      atr := some (atrL.getD p.1 0)
      stoch_k := kL.getD p.1 none
      stoch_d := dL.getD p.1 none
      ema_20 := e20.getD p.1 none
      ema_50 := e50.getD p.1 none
      ema_200 := e200.getD p.1 none
      resistance := rollMax 50 highs p.1
      support := rollMin 50 lows p.1 }

/-! ### Endpoint configuration and request/response plumbing
(app.py lines 14-32, 76-107, 188-189). -/

/-- One entry of the `SYMBOLS` dict: provider exchange and symbol. -/
structure SymbolConfig where
  exchange : String
  symbol : String
deriving DecidableEq

/-- app.py lines 28-32. -/
def SYMBOLS : List (String × SymbolConfig) :=
  [("XAUUSD", ⟨"OANDA", "XAUUSD"⟩),
   ("XAGUSD", ⟨"OANDA", "XAGUSD"⟩),
   ("DXY", ⟨"TVC", "DXY"⟩)]

/-- app.py lines 15-25; the values are the `tvDatafeed.Interval` members. -/
def INTERVALS : List (String × String) :=
  [("1min", "in_1_minute"), ("5min", "in_5_minute"), ("15min", "in_15_minute"),
   ("30min", "in_30_minute"), ("1h", "in_1_hour"), ("2h", "in_2_hour"),
   ("4h", "in_4_hour"), ("1D", "in_daily"), ("1W", "in_weekly")]

/-- The query parameters of the ambient Flask request (`request.args`):
`none` means the parameter is absent and `request.args.get` falls back to
its default. -/
structure ReqArgs where
  symbol : Option String
  interval : Option String
  bars : Option String
deriving DecidableEq

/-- Outcome of the external `tv.get_hist` call: a dataframe, `None`/empty
(the source checks `df is None or df.empty` together), or a raised
exception. -/
inductive FetchOut
  | data (bars : List Bar)
  | nodata
  | raises (msg : String)

/-- The external market-data provider: symbol, exchange, interval code,
`n_bars`. -/
abbrev Fetch := String → String → String → Int → FetchOut

/-- A Python exception, carrying `str(e)`. -/
inductive PyExc
  | indexError (m : String)
  | typeError (m : String)
  | valueError (m : String)
  | generic (m : String)
deriving DecidableEq

/-- `str(e)`. -/
def PyExc.msg : PyExc → String
  | .indexError m => m
  | .typeError m => m
  | .valueError m => m
  | .generic m => m

/-- Decimal digit value of a character. -/
def digitVal (c : Char) : Option Nat :=
  if '0' ≤ c ∧ c ≤ '9' then some (c.toNat - '0'.toNat) else none

/-- Left-to-right decimal accumulation; fails on any non-digit. -/
def parseDigitsAux (acc : Nat) : List Char → Option Nat
  | [] => some acc
  | c :: rest =>
    match digitVal c with
    | some d => parseDigitsAux (acc * 10 + d) rest
    | none => none

/-- A non-empty all-digit sequence as a number. -/
def parseDigits : List Char → Option Nat
  | [] => none
  | cs => parseDigitsAux 0 cs

/-- Python `int(str)`: optional sign followed by decimal digits (the
whitespace and underscore tolerance of CPython's `int()` is not modelled;
no claim depends on it). -/
def pyParseInt (s : String) : Option Int :=
  match s.toList with
  | '-' :: rest => (parseDigits rest).map fun n => -(n : Int)
  | '+' :: rest => (parseDigits rest).map fun n => (n : Int)
  | cs => (parseDigits cs).map fun n => (n : Int)

/-- `int(request.args.get('bars', 100))` (app.py line 88): the default is
already the int 100; a present parameter is a string parsed by `int()`,
which raises `ValueError` on malformed input. -/
def pyIntArg : Option String → Except PyExc Int
  | none => .ok 100
  | some s =>
    match pyParseInt s with
    | some n => .ok n
    | none => .error (.valueError ("invalid literal for int() with base 10: " ++ s))

/-- The `indicateurs` sub-dict of the response (app.py lines 148-161). -/
structure Indicateurs where
  rsi : PF
  rsi_signal : String
  macd : PF
  macd_signal : PF
  macd_diff : PF
  macd_signal_txt : String
  stoch_k : PF
  stoch_d : PF
  atr : PF
  ema_20 : PF
  ema_50 : PF
  ema_200 : PF

/-- The `bollinger` sub-dict (app.py lines 163-168). -/
structure BollingerOut where
  upper : Option ℝ
  middle : PF
  lower : Option ℝ
  position : String

/-- The `niveaux` sub-dict (app.py lines 170-175). -/
structure Niveaux where
  resistance : PF
  support : PF
  distance_resistance : PF
  distance_support : PF

/-- The `analyse` sub-dict (app.py lines 177-181). -/
structure Analyse where
  tendance : String
  position_vs_ema20 : String
  force : String

/-- The success-response dict of `get_data` (app.py lines 140-184). -/
structure RespBody where
  symbol : String
  interval : String
  timestamp : String
  prix_actuel : PF
  variation : PF
  variation_pourcent : PF
  indicateurs : Indicateurs
  bollinger : BollingerOut
  niveaux : Niveaux
  analyse : Analyse
  donnees_brutes : List Row

/-- What a Flask view returns: `jsonify(response)` alone (a bare `Response`,
implicitly HTTP 200) or the tuple `jsonify({'error': ...}), code`. -/
inductive PyResp
  | ok (body : RespBody)
  | err (msg : String) (code : Nat)

/-- app.py lines 140-184: the response dict built from the last two rows.
`variation_pourcent` divides by the previous close; numpy turns a zero
divisor into ±inf/NaN rather than raising, modelled as missing. -/
def mkRespBody (symbol interval : String) (rows : List Row) : RespBody :=
  let current := rows.getD (rows.length - 1) default
  let previous := rows.getD (rows.length - 2) default
  { symbol := symbol
    interval := interval
    timestamp := current.datetime
    prix_actuel := some current.close
    variation := some (current.close - previous.close)
    variation_pourcent :=
      if previous.close = 0 then none
      else some ((current.close - previous.close) / previous.close * 100)
    indicateurs :=
      { rsi := current.rsi
        rsi_signal := rsiLabel current.rsi
        macd := current.macd
        macd_signal := current.macd_signal
        macd_diff := current.macd_diff
        macd_signal_txt := macdLabel current.macd current.macd_signal
        stoch_k := current.stoch_k
        stoch_d := current.stoch_d
        atr := current.atr
        ema_20 := current.ema_20
        ema_50 := current.ema_50
        ema_200 := current.ema_200 }
    bollinger :=
      { upper := current.bb_upper
        middle := current.bb_middle
        lower := current.bb_lower
        position := bollPosition (some current.close) current.bb_middle }
    niveaux :=
      { resistance := current.resistance
        support := current.support
        distance_resistance := pfSub current.resistance (some current.close)
        distance_support := pfSub (some current.close) current.support }
    analyse :=
      { tendance := trendLabel (some current.close) current.ema_20 current.ema_50
        position_vs_ema20 := posVsEma20 (some current.close) current.ema_20
        force := forceLabel (some current.close) current.ema_20 current.atr }
    donnees_brutes := rows.drop (rows.length - 10) }

/-- The body of the `/data` handler inside its `try` (app.py lines 85-186).
An `Except.error` is an exception reaching the `except` clause.  The `ta`
ATR computation writes `atr[13]` into `np.zeros(len(df))`, so a dataframe
shorter than 14 rows raises `IndexError` inside `calculate_indicators`. -/
noncomputable def get_data_body (args : ReqArgs) (fetch : Fetch) : Except PyExc PyResp :=
  match pyIntArg args.bars with
  | .error e => .error e
  | .ok nbars =>
    match List.lookup (args.symbol.getD "XAUUSD") SYMBOLS with
    | none => .ok (.err ("Symbol " ++ args.symbol.getD "XAUUSD" ++ " not supported") 400)
    | some config =>
      match List.lookup (args.interval.getD "1h") INTERVALS with
      | none => .ok (.err ("Interval " ++ args.interval.getD "1h" ++ " not supported") 400)
      | some icode =>
        match fetch config.symbol config.exchange icode nbars with
        | .raises m => .error (.generic m)
        | .nodata => .ok (.err "No data received from TradingView" 500)
        | .data df =>
          if df.length = 0 then .ok (.err "No data received from TradingView" 500)
          else if df.length < 14 then
            .error (.indexError ("index 13 is out of bounds for axis 0 with size "
              ++ toString df.length))
          else
            .ok (.ok (mkRespBody (args.symbol.getD "XAUUSD") (args.interval.getD "1h")
              (buildRows df)))

/-- The `/data` handler (app.py lines 76-189): the `try/except` turns any
exception into `jsonify({'error': str(e)}), 500`. -/
noncomputable def get_data (args : ReqArgs) (fetch : Fetch) : PyResp :=
  match get_data_body args fetch with
  | .ok r => r
  | .error e => .err e.msg 500

/-! ### The `/multi` endpoint (app.py lines 191-225). -/

/-- A per-combination entry of the `/multi` results dict.  The loop body can
only store `{'error': 'Failed to fetch'}` (when `response[1] != 200`) or, in
the dead `response[1] == 200` branch, `response[0].get_json()` — which, the
tuple forms being the error returns, is the inner error dict.  A successful
inner response is a bare `Response`, and `response[1]` raises before
anything is stored. -/
inductive MultiEntry
  | failed
  | errJson (msg : String)
deriving DecidableEq

/-- `response[1]` / `response[0].get_json()` on an inner `get_data` result
(app.py lines 216-220).  A bare `Response` (the success case) is not
subscriptable, so `response[1]` raises `TypeError`. -/
def multiEntryOf : PyResp → Except PyExc MultiEntry
  | .ok _ => .error (.typeError "Response object is not subscriptable")
  | .err m c => .ok (if c = 200 then .errJson m else .failed)

/-- The whole `/multi` response. -/
inductive MultiResp
  | ok (results : List (String × List (String × MultiEntry)))
  | err (msg : String) (code : Nat)
deriving DecidableEq

/-- Inner loop over the intervals for one symbol (app.py lines 210-220).
The source synthesizes a fake request object from the pair
`(symbol, interval)` (lines 212-214) but never passes it anywhere:
`get_data()` reads the ambient request's query args `ga`, so every
combination is processed with the same parameters. -/
noncomputable def multiInner (ga : ReqArgs) (fetch : Fetch) :
    List String → Except PyExc (List (String × MultiEntry))
  | [] => .ok []
  | interval :: rest =>
    match multiEntryOf (get_data ga fetch) with
    | .error e => .error e
    | .ok entry =>
      match multiInner ga fetch rest with
      | .error e => .error e
      | .ok tail => .ok ((interval, entry) :: tail)

/-- Outer loop over the symbols (app.py lines 208-209). -/
noncomputable def multiOuter (ga : ReqArgs) (fetch : Fetch) (intervals : List String) :
    List String → Except PyExc (List (String × List (String × MultiEntry)))
  | [] => .ok []
  | symbol :: rest =>
    match multiInner ga fetch intervals with
    | .error e => .error e
    | .ok row =>
      match multiOuter ga fetch intervals rest with
      | .error e => .error e
      | .ok tail => .ok ((symbol, row) :: tail)

/-- The `/multi` handler (app.py lines 191-225): `symbols` and `intervals`
come from the POST body, `ga` is the ambient request's query args, and the
`try/except` turns any exception into `jsonify({'error': str(e)}), 500`. -/
noncomputable def get_multi_data (symbols intervals : List String) (ga : ReqArgs)
    (fetch : Fetch) : MultiResp :=
  match multiOuter ga fetch intervals symbols with
  | .ok results => .ok results
  | .error e => .err e.msg 500

/-! ### Field extractors on endpoint responses (for stating claims). -/

/-- The body of a success response, if any. -/
def respBodyOpt : PyResp → Option RespBody
  | .ok b => some b
  | .err _ _ => none

/-- `indicateurs.ema_20` of a success response. -/
def respEma20 : PyResp → Option PF
  | .ok b => some b.indicateurs.ema_20
  | .err _ _ => none

/-- `indicateurs.macd` of a success response. -/
def respMacd : PyResp → Option PF
  | .ok b => some b.indicateurs.macd
  | .err _ _ => none

/-- `indicateurs.macd_signal_txt` of a success response. -/
def respMacdTxt : PyResp → Option String
  | .ok b => some b.indicateurs.macd_signal_txt
  | .err _ _ => none

/-- `analyse.tendance` of a success response. -/
def respTendance : PyResp → Option String
  | .ok b => some b.analyse.tendance
  | .err _ _ => none

/-- `analyse.force` of a success response. -/
def respForce : PyResp → Option String
  | .ok b => some b.analyse.force
  | .err _ _ => none

/-- `bollinger.middle` of a success response. -/
def respBbMiddle : PyResp → Option PF
  | .ok b => some b.bollinger.middle
  | .err _ _ => none

/-- `bollinger.position` of a success response. -/
def respPosition : PyResp → Option String
  | .ok b => some b.bollinger.position
  | .err _ _ => none

/-- `indicateurs.rsi_signal` of a success response. -/
def respRsiTxt : PyResp → Option String
  | .ok b => some b.indicateurs.rsi_signal
  | .err _ _ => none

/-- `niveaux.resistance` of a success response. -/
def respResistance : PyResp → Option PF
  | .ok b => some b.niveaux.resistance
  | .err _ _ => none

/-- `niveaux.support` of a success response. -/
def respSupport : PyResp → Option PF
  | .ok b => some b.niveaux.support
  | .err _ _ => none

/-- `niveaux.distance_resistance` of a success response. -/
def respDistRes : PyResp → Option PF
  | .ok b => some b.niveaux.distance_resistance
  | .err _ _ => none

/-- `niveaux.distance_support` of a success response. -/
def respDistSup : PyResp → Option PF
  | .ok b => some b.niveaux.distance_support
  | .err _ _ => none

/-- `prix_actuel` of a success response. -/
def respPrix : PyResp → Option PF
  | .ok b => some b.prix_actuel
  | .err _ _ => none

/-! ### Concrete inputs used by witnesses and counterexamples. -/

/-- A request with no query parameters. -/
def noArgs : ReqArgs := ⟨none, none, none⟩

/-- A constant bar. -/
def barC : Bar := ⟨"2024-01-01T00:00:00", 1, 2, 0, 1, 10⟩

/-- 14 identical bars: long enough for ATR/RSI, too short for EMA20, MACD,
Bollinger, resistance/support. -/
def bars14 : List Bar := List.replicate 14 barC

/-- A bar whose close has broken above the rolling high. -/
def barBreak : Bar := ⟨"2024-01-01T00:00:00", 1, 10, 5, 12, 1⟩

/-- 50 identical bars with close above high: resistance/support defined. -/
def bars50 : List Bar := List.replicate 50 barBreak

/-- Provider with data only for the symbol XAUUSD. -/
def fetchXAU : Fetch := fun s _ _ _ => if s = "XAUUSD" then .data bars14 else .nodata

/-- Provider always returning the 50-bar series. -/
def fetch50 : Fetch := fun _ _ _ _ => .data bars50

/-- Provider always returning a single bar. -/
def fetch1 : Fetch := fun _ _ _ _ => .data [barC]

/-- Provider never returning data. -/
def fetchNone : Fetch := fun _ _ _ _ => .nodata

/-! ### Theorems. -/

/-- C4: with EMA20 and EMA50 defined at the latest bar, the trend label is
`HAUSSIÈRE` (bullish) iff close > EMA20 and EMA20 > EMA50 strictly,
`BAISSIÈRE` (bearish) iff close < EMA20 and EMA20 < EMA50 strictly, and
`NEUTRE` exactly otherwise — so equality anywhere yields neutral. -/
theorem C4_trend_label_rule (c e20 e50 : ℚ) :
    (trendLabel (some c) (some e20) (some e50) = "HAUSSIÈRE" ↔ e20 < c ∧ e50 < e20) ∧
    (trendLabel (some c) (some e20) (some e50) = "BAISSIÈRE" ↔ c < e20 ∧ e20 < e50) ∧
    (trendLabel (some c) (some e20) (some e50) = "NEUTRE" ↔
      ¬(e20 < c ∧ e50 < e20) ∧ ¬(c < e20 ∧ e20 < e50)) := by
  simp only [trendLabel, pyGt, pyLt, Bool.and_eq_true, decide_eq_true_eq]
  by_cases h1 : e20 < c ∧ e50 < e20
  · rw [if_pos h1]
    refine ⟨by simp [h1], ?_, ?_⟩
    · exact ⟨fun h => absurd h (by decide), fun hx => absurd hx.1 h1.1.asymm⟩
    · exact ⟨fun h => absurd h (by decide), fun hx => absurd h1 hx.1⟩
  · rw [if_neg h1]
    by_cases h2 : c < e20 ∧ e20 < e50
    · rw [if_pos h2]
      refine ⟨?_, by simp [h2], ?_⟩
      · exact ⟨fun h => absurd h (by decide), fun hx => absurd hx h1⟩
      · exact ⟨fun h => absurd h (by decide), fun hx => absurd h2 hx.2⟩
    · rw [if_neg h2]
      exact ⟨⟨fun h => absurd h (by decide), fun hx => absurd hx h1⟩,
             ⟨fun h => absurd h (by decide), fun hx => absurd hx h2⟩,
             by simp [h1, h2]⟩

/-- Witness for C4 at concrete inputs, including the boundary case
close = EMA20 falling to `NEUTRE`. -/
theorem C4_trend_label_rule_witness :
    trendLabel (some 3) (some 2) (some 1) = "HAUSSIÈRE" ∧
    trendLabel (some 2) (some 2) (some 1) = "NEUTRE" :=
  ⟨(C4_trend_label_rule 3 2 1).1.mpr (by norm_num),
   (C4_trend_label_rule 2 2 1).2.2.mpr (by norm_num)⟩

/-- C5: with MACD line and signal line defined, the MACD text label is
two-way: `HAUSSIER` iff line > signal strictly, `BAISSIER` iff line ≤
signal (so a tie is bearish), and `NEUTRE` is unreachable. -/
theorem C5_macd_two_way (m s : ℚ) :
    (macdLabel (some m) (some s) = "HAUSSIER" ↔ s < m) ∧
    (macdLabel (some m) (some s) = "BAISSIER" ↔ m ≤ s) ∧
    macdLabel (some m) (some s) ≠ "NEUTRE" := by
  simp only [macdLabel, pyGt, decide_eq_true_eq]
  by_cases h : s < m
  · rw [if_pos h]
    exact ⟨by simp [h], ⟨fun hx => absurd hx (by decide), fun hx => absurd h hx.not_lt⟩,
           by decide⟩
  · rw [if_neg h]
    exact ⟨⟨fun hx => absurd hx (by decide), fun hx => absurd hx h⟩,
           by simp [not_lt.mp h], by decide⟩

/-- Witness for C5: a tie classifies as `BAISSIER`. -/
theorem C5_macd_two_way_witness : macdLabel (some 1) (some 1) = "BAISSIER" :=
  (C5_macd_two_way 1 1).2.1.mpr le_rfl

/-- C3 counterexample: a request whose provider returns 14 bars (too short
for EMA20/EMA50, MACD and Bollinger) SUCCEEDS and reports the ordinary
default labels — trend `NEUTRE`, MACD `BAISSIER`, Bollinger
`proche_support`, strength `FAIBLE` — while the corresponding indicator
values are missing, instead of an explicit "unavailable" state. -/
theorem C3_counterexample :
    respEma20 (get_data noArgs fetchXAU) = some none ∧
    respTendance (get_data noArgs fetchXAU) = some "NEUTRE" ∧
    respMacd (get_data noArgs fetchXAU) = some none ∧
    respMacdTxt (get_data noArgs fetchXAU) = some "BAISSIER" ∧
    respBbMiddle (get_data noArgs fetchXAU) = some none ∧
    respPosition (get_data noArgs fetchXAU) = some "proche_support" ∧
    respForce (get_data noArgs fetchXAU) = some "FAIBLE" :=
  ⟨rfl, rfl, rfl, rfl, rfl, rfl, rfl⟩

/-- C3 amended: when an indicator needed by a label is missing (NaN) at the
latest bar, every NaN comparison is false, so each classification falls to
its default branch: trend `NEUTRE`, MACD `BAISSIER`, RSI `NEUTRE`,
Bollinger position `proche_support`, strength `FAIBLE`.  Missing-ness is
visible only through the numeric fields being NaN, not through the labels. -/
theorem C3_missing_indicator_defaults (c s a e50 : PF) :
    trendLabel c none e50 = "NEUTRE" ∧
    macdLabel none s = "BAISSIER" ∧
    rsiLabel none = "NEUTRE" ∧
    bollPosition c none = "proche_support" ∧
    forceLabel c none a = "FAIBLE" := by
  have hgt : ∀ x : PF, pyGt x none = false := by intro x; cases x <;> rfl
  have hgt2 : ∀ x : PF, pyGt none x = false := by intro x; cases x <;> rfl
  have hlt : ∀ x : PF, pyLt x none = false := by intro x; cases x <;> rfl
  have hlt2 : ∀ x : PF, pyLt none x = false := by intro x; cases x <;> rfl
  have hsub : ∀ x : PF, pfSub x none = none := by intro x; cases x <;> rfl
  refine ⟨?_, ?_, ?_, ?_, ?_⟩ <;>
    simp [trendLabel, macdLabel, rsiLabel, bollPosition, forceLabel,
      hgt, hgt2, hlt, hlt2, hsub, pfAbs]

/-- C1 (code bug): the batch endpoint does not use each pair's own
parameters.  First conjunct: a batch asking only for XAGUSD, against a
provider that has data only for XAUUSD, still triggers the default
(XAUUSD, 1h) pipeline — which succeeds, whereupon `response[1]` on the bare
success `Response` raises and the whole batch returns a 500 error instead
of the per-pair mapping.  Second conjunct: when the default combination
fails, the mapping is returned but every entry is the generic
`Failed to fetch` marker, never a pair's own result. -/
theorem C1_pair_parameters_ignored :
    get_multi_data ["XAGUSD"] ["1h"] noArgs fetchXAU =
      .err "Response object is not subscriptable" 500 ∧
    get_multi_data ["XAUUSD", "XAGUSD"] ["1h", "4h"] noArgs fetchNone =
      .ok [("XAUUSD", [("1h", .failed), ("4h", .failed)]),
           ("XAGUSD", [("1h", .failed), ("4h", .failed)])] :=
  ⟨rfl, rfl⟩

/-- C2 (code bug): a batch with one supported (XAUUSD) and one unsupported
(FAKECOIN) symbol does not return the supported symbol's result next to an
unsupported-instrument error: the very first combination runs `get_data`
with the ambient request's defaults, succeeds, and the `response[1]`
subscript raises, aborting the whole batch with a 500 error. -/
theorem C2_failure_not_isolated :
    get_multi_data ["XAUUSD", "FAKECOIN"] ["1h"] noArgs fetchXAU =
      .err "Response object is not subscriptable" 500 :=
  rfl

/-- C6: wherever the Bollinger(20,2) outputs are defined (index at least 19
inside the series), upper band ≥ middle band ≥ lower band, because the
rolling standard deviation is a square root and hence nonnegative. -/
theorem C6_bollinger_band_order (closes : List ℚ) (i : Nat)
    (hw : 20 ≤ i + 1) (hl : i < closes.length) :
    ∃ (u l : ℝ) (m : ℚ), bb_hband closes i = some u ∧ bb_mavg closes i = some m ∧
      bb_lband closes i = some l ∧ l ≤ (m : ℝ) ∧ (m : ℝ) ≤ u := by
  have hm0 : rollMean 20 closes i = some ((windowL 20 closes i).sum / (20 : ℚ)) := by
    unfold rollMean
    rw [if_pos ⟨hw, hl⟩]
    norm_num
  have hv : bb_var closes i =
      some (((windowL 20 closes i).map
        (fun x => (x - (windowL 20 closes i).sum / (20 : ℚ))^2)).sum / 20) := by
    unfold bb_var
    rw [hm0]
  have hs : bb_std closes i =
      some (Real.sqrt ((((windowL 20 closes i).map
        (fun x => (x - (windowL 20 closes i).sum / (20 : ℚ))^2)).sum / 20 : ℚ) : ℝ)) := by
    unfold bb_std
    rw [hv]
    rfl
  have hmav : bb_mavg closes i = some ((windowL 20 closes i).sum / (20 : ℚ)) := by
    unfold bb_mavg
    exact hm0
  have hh : bb_hband closes i =
      some ((((windowL 20 closes i).sum / (20 : ℚ) : ℚ) : ℝ) +
        2 * Real.sqrt ((((windowL 20 closes i).map
          (fun x => (x - (windowL 20 closes i).sum / (20 : ℚ))^2)).sum / 20 : ℚ) : ℝ)) := by
    unfold bb_hband
    rw [hmav, hs]
  have hlb : bb_lband closes i =
      some ((((windowL 20 closes i).sum / (20 : ℚ) : ℚ) : ℝ) -
        2 * Real.sqrt ((((windowL 20 closes i).map
          (fun x => (x - (windowL 20 closes i).sum / (20 : ℚ))^2)).sum / 20 : ℚ) : ℝ)) := by
    unfold bb_lband
    rw [hmav, hs]
  refine ⟨_, _, _, hh, hmav, hlb, ?_, ?_⟩
  · have hnn := Real.sqrt_nonneg ((((windowL 20 closes i).map
      (fun x => (x - (windowL 20 closes i).sum / (20 : ℚ))^2)).sum / 20 : ℚ) : ℝ)
    linarith
  · have hnn := Real.sqrt_nonneg ((((windowL 20 closes i).map
      (fun x => (x - (windowL 20 closes i).sum / (20 : ℚ))^2)).sum / 20 : ℚ) : ℝ)
    linarith

/-- A 20-close constant series for the C6 witness. -/
def closes20 : List ℚ := List.replicate 20 5

/-- Witness for C6 at a concrete 20-bar series and its first defined index. -/
theorem C6_bollinger_band_order_witness :
    ∃ (u l : ℝ) (m : ℚ), bb_hband closes20 19 = some u ∧ bb_mavg closes20 19 = some m ∧
      bb_lband closes20 19 = some l ∧ l ≤ (m : ℝ) ∧ (m : ℝ) ≤ u :=
  C6_bollinger_band_order closes20 19 (by decide) (by decide)

/-- Helper: the four possible shapes of a `get_data_body` outcome — an
exception, a 400 error tuple, a 500 error tuple, or the success body built
by `mkRespBody` from the fetched dataframe. -/
theorem get_data_body_shape (args : ReqArgs) (fetch : Fetch) :
    (∃ e, get_data_body args fetch = .error e) ∨
    (∃ m, get_data_body args fetch = .ok (.err m 400)) ∨
    (∃ m, get_data_body args fetch = .ok (.err m 500)) ∨
    (∃ df, get_data_body args fetch =
      .ok (.ok (mkRespBody (args.symbol.getD "XAUUSD") (args.interval.getD "1h")
        (buildRows df)))) := by
  unfold get_data_body
  cases hp : pyIntArg args.bars with
  | error e =>
    exact Or.inl ⟨e, rfl⟩
  | ok nbars =>
    dsimp only
    cases hsym : List.lookup (args.symbol.getD "XAUUSD") SYMBOLS with
    | none =>
      exact Or.inr (Or.inl ⟨_, rfl⟩)
    | some config =>
      dsimp only
      cases hint : List.lookup (args.interval.getD "1h") INTERVALS with
      | none =>
        exact Or.inr (Or.inl ⟨_, rfl⟩)
      | some icode =>
        dsimp only
        cases hfo : fetch config.symbol config.exchange icode nbars with
        | raises m =>
          exact Or.inl ⟨_, rfl⟩
        | nodata =>
          exact Or.inr (Or.inr (Or.inl ⟨_, rfl⟩))
        | data df =>
          dsimp only
          by_cases h0 : df.length = 0
          · rw [if_pos h0]
            exact Or.inr (Or.inr (Or.inl ⟨_, rfl⟩))
          · rw [if_neg h0]
            by_cases h14 : df.length < 14
            · rw [if_pos h14]
              exact Or.inl ⟨_, rfl⟩
            · rw [if_neg h14]
              exact Or.inr (Or.inr (Or.inr ⟨df, rfl⟩))

/-- Helper: every success body of `get_data` computes the two distance
fields as `resistance − close` and `close − support` on the latest row. -/
theorem get_data_ok_distances (args : ReqArgs) (fetch : Fetch) (b : RespBody)
    (h : get_data args fetch = .ok b) :
    b.niveaux.distance_resistance = pfSub b.niveaux.resistance b.prix_actuel ∧
    b.niveaux.distance_support = pfSub b.prix_actuel b.niveaux.support := by
  unfold get_data at h
  rcases get_data_body_shape args fetch with ⟨e, he⟩ | ⟨m, hm⟩ | ⟨m, hm⟩ | ⟨df, hd⟩
  · rw [he] at h
    exact absurd h (by simp)
  · rw [hm] at h
    exact absurd h (by simp)
  · rw [hm] at h
    exact absurd h (by simp)
  · rw [hd] at h
    have h2 : PyResp.ok (mkRespBody (args.symbol.getD "XAUUSD") (args.interval.getD "1h")
        (buildRows df)) = PyResp.ok b := h
    cases h2
    exact ⟨rfl, rfl⟩

/-- C7: whenever a single-combination request succeeds and the rolling
50-period resistance and support are defined at the latest bar (close is
always defined), the reported `distance_resistance` is exactly
resistance − close and `distance_support` is exactly close − support, as
signed rationals. -/
theorem C7_distances (args : ReqArgs) (fetch : Fetch) (r s c : ℚ)
    (hr : respResistance (get_data args fetch) = some (some r))
    (hs : respSupport (get_data args fetch) = some (some s))
    (hc : respPrix (get_data args fetch) = some (some c)) :
    respDistRes (get_data args fetch) = some (some (r - c)) ∧
    respDistSup (get_data args fetch) = some (some (c - s)) := by
  cases hR : get_data args fetch with
  | err m code =>
    rw [hR] at hr
    exact absurd hr (by simp [respResistance])
  | ok b =>
    have hrel := get_data_ok_distances args fetch b hR
    rw [hR] at hr hs hc
    simp only [respResistance, respSupport, respPrix, Option.some.injEq] at hr hs hc
    simp only [respDistRes, respDistSup, hrel.1, hrel.2, hr, hs, hc, pfSub]
    exact ⟨trivial, trivial⟩

set_option maxRecDepth 40000

/-- Witness for C7: a 50-bar series whose close (12) exceeds every high
(10), so the resistance distance is the negative value 10 − 12 = −2, and
support distance is 12 − 5 = 7. -/
theorem C7_distances_witness :
    respDistRes (get_data noArgs fetch50) = some (some (10 - 12)) ∧
    respDistSup (get_data noArgs fetch50) = some (some (12 - 5)) :=
  C7_distances noArgs fetch50 10 5 12 rfl rfl rfl

/-- C8: the single-combination handler is total — every outcome is either
the success response or a structured `{'error': ...}` payload with status
400 or 500; no exception escapes the handler. -/
theorem C8_errors_are_structured (args : ReqArgs) (fetch : Fetch) :
    (∃ b, get_data args fetch = .ok b) ∨
    (∃ m, get_data args fetch = .err m 400) ∨
    (∃ m, get_data args fetch = .err m 500) := by
  unfold get_data
  rcases get_data_body_shape args fetch with ⟨e, he⟩ | ⟨m, hm⟩ | ⟨m, hm⟩ | ⟨df, hd⟩
  · exact Or.inr (Or.inr ⟨e.msg, by rw [he]⟩)
  · exact Or.inr (Or.inl ⟨m, by rw [hm]⟩)
  · exact Or.inr (Or.inr ⟨m, by rw [hm]⟩)
  · exact Or.inl ⟨_, by rw [hd]⟩

/-- C9: a request whose symbol, interval and bar count are accepted but
whose provider returns exactly one bar produces an error response with
status 500 (the indicator computation raises before the handler reads the
second-to-last row), not a result. -/
theorem C9_single_bar_is_error (sym intv : String) (cfg : SymbolConfig)
    (icode : String) (fetch : Fetch) (b : Bar)
    (hsy : List.lookup sym SYMBOLS = some cfg)
    (hin : List.lookup intv INTERVALS = some icode)
    (hf : fetch cfg.symbol cfg.exchange icode 100 = .data [b]) :
    ∃ m, get_data ⟨some sym, some intv, none⟩ fetch = .err m 500 := by
  refine ⟨"index 13 is out of bounds for axis 0 with size " ++ toString (1 : Nat), ?_⟩
  unfold get_data get_data_body
  simp only [Option.getD, pyIntArg, hsy, hin, hf]
  norm_num
  rfl

/-- Witness for C9: XAUUSD/1h with a one-bar provider yields a 500 error. -/
theorem C9_single_bar_is_error_witness :
    ∃ m, get_data ⟨some "XAUUSD", some "1h", none⟩ fetch1 = .err m 500 :=
  C9_single_bar_is_error "XAUUSD" "1h" ⟨"OANDA", "XAUUSD"⟩ "in_1_hour" fetch1 barC
    (by decide) (by decide) rfl

/-- C10: a request with no query parameters is processed exactly as the
request with symbol `XAUUSD`, interval `1h` and bars `100` — the handler's
defaults — for every provider behaviour. -/
theorem C10_default_parameters (fetch : Fetch) :
    get_data noArgs fetch = get_data ⟨some "XAUUSD", some "1h", some "100"⟩ fetch :=
  rfl

end App
